import Mathlib

/-!
# Blue-green traffic-splitting middleware: shallow embedding

A shallow embedding of the deployment routing middleware
(`formatDeploymentUrl`, `getNextResponse`, `selectBlueGreenDeployment`,
`fetchRCDeployment`, `handleDeployment`), together with theorems about its
routing behaviour.

Modelling conventions:
* JavaScript `Headers` objects are association lists of name/value pairs with
  case-insensitive name lookup (`hGet`/`hSet`).
* `Math.random() * 100` (a real draw in `[0,100)`) is modelled as an injected
  rational parameter `roll : ℚ`.
* `fetch` is modelled as an injected oracle `UpstreamRequest → UpstreamResponse`;
  the embedding records every upstream request the pipeline issues.
* `new URL(s)` throwing a `TypeError` is modelled with `Except String`;
  `parseUrl` models the WHATWG basic URL parser (no base URL), including the
  special schemes' optional slashes (`http:example.com` has host
  `example.com`), userinfo, digit-only bounded ports, and query/fragment
  delimiting — see its doc comment for the modelled boundary.
* Logging (`console.*`) has no observable effect and is omitted.
-/

deriving instance DecidableEq for Except

namespace BlueGreen

/-- `true` when the pattern occurs as a contiguous sublist (structural
recursion, so concrete instances evaluate in the kernel). -/
def occursIn (pat : List Char) : List Char → Bool
  | [] => pat.isEmpty
  | c :: t => pat.isPrefixOf (c :: t) || occursIn pat t

/-- Models JavaScript `String.prototype.includes` and the regex test
`/pat/.test(s)` for a literal pattern: `true` when `pat` occurs as a
substring of `s`. -/
def substrIn (s pat : String) : Bool :=
  occursIn pat.data s.data

/-- ASCII lowercasing of a string (models JavaScript case-insensitive
matching and `Headers` name normalization). -/
def lowerStr (s : String) : String :=
  ⟨s.data.map Char.toLower⟩

/-- `p` is a prefix of `s`. -/
def strPrefixOf (p s : String) : Bool :=
  p.data.isPrefixOf s.data

/-- `const MAX_AGE = 60 * 60 * 24; // 24 hours` -/
def MAX_AGE : Nat := 60 * 60 * 24

/-- `export const MAX_AGE_TOKEN = 2592000; // 30 days` (unused by routing). -/
def MAX_AGE_TOKEN : Nat := 2592000

/-- A parsed URL: the components of a WHATWG `URL` object that the middleware
touches. `search` carries its leading `?` (empty when there is no query);
`port` is empty when absent. -/
structure Url where
  scheme : String
  hostname : String
  port : String
  pathname : String
  search : String
deriving DecidableEq

/-- Serialization of a `Url` (the `href` property). -/
def hrefOf (u : Url) : String :=
  u.scheme ++ "://" ++ u.hostname ++
    (if u.port = "" then "" else ":" ++ u.port) ++ u.pathname ++ u.search

/-- Split a character list at the first occurrence of the (nonempty)
separator: `some (before, after)` when the separator occurs, `none`
otherwise. -/
def splitFirstOn? (sep : List Char) : List Char → Option (List Char × List Char)
  | [] => none
  | c :: t =>
    if sep.isPrefixOf (c :: t) then some ([], (c :: t).drop sep.length)
    else
      match splitFirstOn? sep t with
      | some (pre, post) => some (c :: pre, post)
      | none => none

/-- ASCII letter. -/
def isAsciiAlpha (c : Char) : Bool :=
  (decide (65 ≤ c.toNat) && decide (c.toNat ≤ 90)) ||
    (decide (97 ≤ c.toNat) && decide (c.toNat ≤ 122))

/-- ASCII digit. -/
def isAsciiDigit (c : Char) : Bool :=
  decide (48 ≤ c.toNat) && decide (c.toNat ≤ 57)

/-- URL scheme continuation characters: ASCII alphanumerics, `+`, `-`, `.`. -/
def isSchemeChar (c : Char) : Bool :=
  isAsciiAlpha c || isAsciiDigit c || c == '+' || c == '-' || c == '.'

/-- A valid URL scheme: an ASCII letter followed by scheme characters. -/
def validScheme : List Char → Bool
  | [] => false
  | c :: rest => isAsciiAlpha c && rest.all isSchemeChar

/-- C0 controls and space, stripped from both ends of URL input. -/
def isC0OrSpace (c : Char) : Bool := decide (c.toNat ≤ 32)

/-- ASCII tab and newlines, removed anywhere in URL input. -/
def isTabOrNewline (c : Char) : Bool :=
  c.toNat == 9 || c.toNat == 10 || c.toNat == 13

/-- The WHATWG forbidden host code points (a host containing one makes the
parser fail); `%` is allowed, since percent-decoding is not modelled. -/
def isForbiddenHostChar (c : Char) : Bool :=
  decide (c.toNat ≤ 32) || c == '#' || c == '/' || c == ':' || c == '<' ||
    c == '>' || c == '?' || c == '@' || c == '[' || c == '\\' || c == ']' ||
    c == '^' || c == '|'

/-- The WHATWG special schemes that require a non-empty host (`file` is
special too but allows an empty host and is handled separately). -/
def specialSchemes : List String := ["http", "https", "ws", "wss", "ftp"]

/-- Default ports of the special schemes, elided when given explicitly. -/
def defaultPort (scheme : String) : Option Nat :=
  if scheme = "http" || scheme = "ws" then some 80
  else if scheme = "https" || scheme = "wss" then some 443
  else if scheme = "ftp" then some 21
  else none

/-- Decimal digits to a natural number. -/
def digitsToNat (ds : List Char) : Nat :=
  ds.foldl (fun a c => a * 10 + (c.toNat - 48)) 0

/-- A URL with no authority: empty host, the remainder split into path,
query and (discarded) fragment; for special schemes `\` acts as `/`. -/
def opaquePathUrl (scheme : String) (special : Bool) (cs : List Char) : Url :=
  let pqf := cs.takeWhile (· != '#')
  let rawPath := pqf.takeWhile (· != '?')
  let search := pqf.drop rawPath.length
  let path :=
    if special then rawPath.map (fun c => if c == '\\' then '/' else c)
    else rawPath
  { scheme := scheme, hostname := "", port := "",
    pathname := String.mk path, search := String.mk search }

/-- Parse a WHATWG authority followed by path/query/fragment. The authority
runs to the first `/`, `?`, `#` (or `\` for special schemes); the host
begins after the last `@` (userinfo); a leading `[` starts a bracketed
(IPv6-shaped) host that must close with `]`; the port must be decimal
digits with value at most 65535 (default ports are elided); an empty host
fails when credentials or a port are present, or when `allowEmptyHost` is
false; hosts of special schemes are lowercased; the fragment is parsed off
and not retained. -/
def parseAuthority (scheme : String) (special allowEmptyHost : Bool)
    (cs : List Char) : Option Url :=
  let authority := cs.takeWhile (fun c =>
    !(c == '/' || c == '?' || c == '#' || (special && c == '\\')))
  let rest := cs.drop authority.length
  let hostPort :=
    match splitFirstOn? ['@'] authority.reverse with
    | some (revHostPort, _) => revHostPort.reverse
    | none => authority
  let atSeen := hostPort.length != authority.length
  let hp : Option (List Char × List Char × Bool) :=
    match hostPort with
    | '[' :: inner =>
      match splitFirstOn? [']'] inner with
      | some (ip, after) =>
        if ip.isEmpty then none
        else
          match after with
          | [] => some ('[' :: (ip ++ [']']), [], true)
          | ':' :: p => some ('[' :: (ip ++ [']']), p, true)
          | _ => none
      | none => none
    | _ =>
      match splitFirstOn? [':'] hostPort with
      | some (h, p) => if h.isEmpty then none else some (h, p, false)
      | none => some (hostPort, [], false)
  match hp with
  | none => none
  | some (hostCs, portCs, bracketed) =>
    if hostCs.isEmpty && (atSeen || !allowEmptyHost) then none
    else if !bracketed && hostCs.any isForbiddenHostChar then none
    else if !(portCs.all isAsciiDigit) then none
    else if !(decide (digitsToNat portCs ≤ 65535)) then none
    else
      let port :=
        if portCs.isEmpty then ""
        else
          match defaultPort scheme with
          | some d =>
            if digitsToNat portCs = d then "" else toString (digitsToNat portCs)
          | none => toString (digitsToNat portCs)
      let pqf := rest.takeWhile (· != '#')
      let rawPath := pqf.takeWhile (· != '?')
      let search := pqf.drop rawPath.length
      let path :=
        if special then rawPath.map (fun c => if c == '\\' then '/' else c)
        else rawPath
      some { scheme := scheme,
             hostname :=
               (if special then lowerStr (String.mk hostCs)
                else String.mk hostCs),
             port := port,
             pathname :=
               (if path.isEmpty && special then "/" else String.mk path),
             search := String.mk search }

/-- Model of the WHATWG `new URL(s)` parser without a base URL. Faithful on:
scheme validation and lowercasing; the special schemes' optional and
repeated slashes and backslashes (so `http:example.com` parses with host
`example.com`, as the real parser does); `\` as a separator in special
URLs; userinfo before the last `@`; bracketed IPv6-shaped hosts; the
empty-host and host-missing failures; digit-only ports of value at most
65535, with default-port elision; path, query and fragment delimiting (the
fragment is parsed off and not retained, since no claim touches it);
removal of tab/newline characters and of leading/trailing C0
controls/spaces; forbidden host code points; domain lowercasing for special
schemes; and opaque paths (empty hostname) for non-special schemes such as
`httpz:rest`. Not modelled, with hosts otherwise taken verbatim:
IDNA/punycode normalization, percent-decoding, numeric (IPv4/IPv6) host
validation, dot-segment path normalization, and `file` drive letters.
`none` models the constructor throwing `TypeError: Invalid URL`. -/
def parseUrl (s : String) : Option Url :=
  let cs := (((s.data.dropWhile isC0OrSpace).reverse.dropWhile
    isC0OrSpace).reverse).filter (fun c => !isTabOrNewline c)
  match splitFirstOn? [':'] cs with
  | none => none
  | some (schemeCs, rest) =>
    if validScheme schemeCs then
      let scheme := lowerStr (String.mk schemeCs)
      if specialSchemes.contains scheme then
        parseAuthority scheme true false
          (rest.dropWhile (fun c => c == '/' || c == '\\'))
      else if scheme = "file" then
        match rest with
        | '/' :: '/' :: tail => parseAuthority scheme true true tail
        | _ => some (opaquePathUrl scheme true rest)
      else
        match rest with
        | '/' :: '/' :: tail => parseAuthority scheme false true tail
        | _ => some (opaquePathUrl scheme false rest)
    else none

/-- `formatDeploymentUrl`: if the identifier starts with `http`
(`/^http/.test(deploymentUrl || '')`), parse it as a URL and return its
hostname — `new URL` throws (modelled as `.error`) when the identifier is not
a parseable URL; otherwise return the identifier unchanged. -/
def formatDeploymentUrl (deploymentUrl : String) : Except String String :=
  if strPrefixOf "http" deploymentUrl then
    match parseUrl deploymentUrl with
    | some u => .ok u.hostname
    | none => .error "Invalid URL"
  else
    .ok deploymentUrl

/-- JavaScript `Headers`: an association list of name/value pairs.
Lookups are case-insensitive, per the `Headers` specification. -/
abbrev HeadersM := List (String × String)

/-- `headers.get(name)`: first value whose name matches case-insensitively,
`null` (here `none`) when absent. -/
def hGet (hs : HeadersM) (name : String) : Option String :=
  (hs.find? (fun p => lowerStr p.1 == lowerStr name)).map Prod.snd

/-- `headers.set(name, value)`: drop existing entries for the name and add the
new pair. -/
def hSet (hs : HeadersM) (name value : String) : HeadersM :=
  hs.filter (fun p => lowerStr p.1 != lowerStr name) ++ [(name, value)]

/-- JavaScript truthiness of `headers.get(name)`: `null` and the empty string
are falsy, every other string is truthy. -/
def truthy : Option String → Bool
  | none => false
  | some v => v != ""

/-- The inbound `NextRequest` as the middleware reads it: URL, method,
request headers, and parsed request cookies. -/
structure RequestM where
  url : Url
  method : String
  headers : HeadersM
  cookies : List (String × String)
deriving DecidableEq

/-- `request.cookies.get(name)?.value` (cookie names are case-sensitive). -/
def cookieGet (req : RequestM) (name : String) : Option String :=
  (req.cookies.find? (fun p => p.1 = name)).map Prod.snd

/-- The upstream request issued by `fetch(url, { headers, redirect: 'manual' })`.
No `method` option is passed, so the upstream method is the `fetch` default
`"GET"`. -/
structure UpstreamRequest where
  url : Url
  method : String
  headers : HeadersM
  redirect : String
deriving DecidableEq

/-- The upstream `Response`: status, the list of `Set-Cookie` header values
(in order, as returned by `getSetCookie()`), and the body. -/
structure UpstreamResponse where
  status : Nat
  setCookies : List String
  body : String
deriving DecidableEq

/-- The caller-supplied `NextResponse` shell, reduced to what the middleware
observes and mutates: its list of raw `Set-Cookie` header values. -/
structure ResponseM where
  setCookies : List String
deriving DecidableEq

/-- The name of a serialized cookie: everything before the first `=`. -/
def cookieName (raw : String) : String := ⟨raw.data.takeWhile (· != '=')⟩

/-- Serialization used by `response.cookies.set(name, value, { maxAge })`.
Only the `Max-Age` attribute is modelled; other attributes the framework may
add (e.g. `Path`) are irrelevant to the routing claims. -/
def serializeCookie (name value : String) (maxAge : Option Nat) : String :=
  name ++ "=" ++ value ++
    (match maxAge with
     | some n => "; Max-Age=" ++ toString n
     | none => "")

/-- `response.cookies.set(name, value, { maxAge })`: replace any `Set-Cookie`
value for the same cookie name with the freshly serialized one. -/
def cookiesSet (r : ResponseM) (name value : String) (maxAge : Option Nat) :
    ResponseM :=
  { setCookies :=
      r.setCookies.filter (fun c => cookieName c != name) ++
        [serializeCookie name value maxAge] }

/-- The two deployment environments returned by `selectBlueGreenDeployment`. -/
inductive Env where
  | rc
  | production
deriving DecidableEq

/-- The blue-green configuration object `{ trafficRcPercent: number }`. -/
structure BlueGreenConfig where
  trafficRcPercent : ℚ
deriving DecidableEq

/-- `selectBlueGreenDeployment`: `Math.random() * 100 < config.trafficRcPercent
? 'rc' : 'production'`. The draw `roll` models `Math.random() * 100`, a value
in `[0, 100)`. -/
def selectBlueGreenDeployment (config : BlueGreenConfig) (roll : ℚ) : Env :=
  if roll < config.trafficRcPercent then .rc else .production

/-- `getNextResponse`: resolve the domain to a hostname (`new URL` may throw),
substitute the hostname into the inbound request's URL, set the
`x-deployment-override` header on the forwarded header set, and issue exactly
one `fetch` with those headers and `redirect: 'manual'` (and the default
method `"GET"`, since no method option is passed). Returns the issued upstream
request together with the upstream response. -/
def getNextResponse (req : RequestM) (domain : String) (headers : HeadersM)
    (uuid : String) (fetchO : UpstreamRequest → UpstreamResponse) :
    Except String (UpstreamRequest × UpstreamResponse) :=
  match formatDeploymentUrl domain with
  | .error e => .error e
  | .ok formattedDomain =>
    let url := { req.url with hostname := formattedDomain }
    let headers := hSet headers "x-deployment-override" formattedDomain
    let upReq : UpstreamRequest :=
      { url := url, method := "GET", headers := headers, redirect := "manual" }
    .ok (upReq, fetchO upReq)

/-- `fetchRCDeployment`: proxy to the RC domain, then append to the upstream
response's `set-cookie` headers every `Set-Cookie` value of the base response
followed by the literal string `release_candidate=true`
(`['release_candidate=true'].toString()`). -/
def fetchRCDeployment (req : RequestM) (headers : HeadersM) (uuid : String)
    (rcDomain : String) (response : ResponseM)
    (fetchO : UpstreamRequest → UpstreamResponse) :
    Except String (UpstreamRequest × UpstreamResponse) :=
  match getNextResponse req rcDomain headers uuid fetchO with
  | .error e => .error e
  | .ok (upReq, upResp) =>
    .ok (upReq,
      { upResp with
          setCookies :=
            upResp.setCookies ++ response.setCookies ++
              ["release_candidate=true"] })

/-- `isDocumentRequest`: when a `sec-fetch-dest` header is present the request
is a document request exactly when its value is `"document"`; otherwise fall
back to whether the `accept` header contains `text/html` (absent `accept`
is falsy). -/
def isDocumentRequest (req : RequestM) : Bool :=
  match hGet req.headers "sec-fetch-dest" with
  | some v => v == "document"
  | none =>
    match hGet req.headers "accept" with
    | some a => substrIn a "text/html"
    | none => false

/-- `/vercel/i.test(userAgent)`: case-insensitive `vercel` substring match. -/
def isVercelUserAgent (userAgent : String) : Bool :=
  substrIn (lowerStr userAgent) "vercel"

/-- `shouldSkipBlueGreenDeployment`: skip when the method is not `GET`, the
request is not a document request, or the user agent (read from the forwarded
header set, defaulting to the empty string) matches the Vercel signature. -/
def shouldSkipBlueGreenDeployment (request : RequestM) (headers : HeadersM) :
    Bool :=
  false || request.method != "GET" || !(isDocumentRequest request) ||
    isVercelUserAgent ((hGet headers "user-agent").getD "") || false

/-- The blue-green configuration in `handleDeployment` is the hard-coded
object literal `{ trafficRcPercent: 90 }`; the truthiness test
`if (!productionRcConfig)` is modelled as a match on this `Option`, which is
always `some`. -/
def productionRcConfig : Option BlueGreenConfig :=
  some { trafficRcPercent := 90 }

/-- The response `handleDeployment` hands back: either the caller's base
`NextResponse` (possibly with a cookie written onto it) or a proxied upstream
response. -/
inductive FinalResponse where
  | base : ResponseM → FinalResponse
  | proxied : UpstreamResponse → FinalResponse
deriving DecidableEq

/-- `handleDeployment`, with the `fetch` effect made explicit: the result is
the final response paired with the list of upstream requests issued.
Branches in source order: eligibility skip; `release_candidate=false` cookie
skip; `x-deployment-override` header skip (JavaScript truthiness);
`/release-candidate` reserved path; `release_candidate=true` cookie; dead
config-absent branch; weighted draw writing the `false` cookie on the
production arm and proxying on the `rc` arm. -/
def handleDeployment (request : RequestM) (response : ResponseM)
    (headers : HeadersM) (uuid config rcDomain : String) (roll : ℚ)
    (fetchO : UpstreamRequest → UpstreamResponse) :
    Except String (FinalResponse × List UpstreamRequest) :=
  if shouldSkipBlueGreenDeployment request headers then
    .ok (.base response, [])
  else if cookieGet request "release_candidate" = some "false" then
    .ok (.base response, [])
  else if truthy (hGet request.headers "x-deployment-override") then
    .ok (.base response, [])
  else if request.url.pathname = "/release-candidate" then
    match fetchRCDeployment request headers uuid rcDomain response fetchO with
    | .error e => .error e
    | .ok (upReq, upResp) => .ok (.proxied upResp, [upReq])
  else if cookieGet request "release_candidate" = some "true" then
    match fetchRCDeployment request headers uuid rcDomain response fetchO with
    | .error e => .error e
    | .ok (upReq, upResp) => .ok (.proxied upResp, [upReq])
  else
    match productionRcConfig with
    | none => .ok (.base response, [])
    | some cfg =>
      match selectBlueGreenDeployment cfg roll with
      | .production =>
        .ok (.base (cookiesSet response "release_candidate" "false"
              (some MAX_AGE)), [])
      | .rc =>
        match fetchRCDeployment request headers uuid rcDomain response fetchO with
        | .error e => .error e
        | .ok (upReq, upResp) => .ok (.proxied upResp, [upReq])

/-! ## Concrete instances used to witness the theorems -/

/-- A fetch oracle whose upstream always answers 200 with no cookies. -/
def okOracle : UpstreamRequest → UpstreamResponse := fun _ => ⟨200, [], ""⟩

/-- A fetch oracle whose upstream answers 200 with one `Set-Cookie: b=2`. -/
def bOracle : UpstreamRequest → UpstreamResponse := fun _ => ⟨200, ["b=2"], ""⟩

/-- An eligible `GET` document request for `/release-candidate` whose inbound
headers carry the loop-prevention header with an *empty* value. -/
def req1cex : RequestM :=
  { url := ⟨"https", "www.example.com", "", "/release-candidate", ""⟩,
    method := "GET",
    headers := [("sec-fetch-dest", "document"), ("x-deployment-override", "")],
    cookies := [] }

/-- An eligible `GET` document request for `/release-candidate` whose inbound
headers carry the loop-prevention header with a non-empty value. -/
def req1w : RequestM :=
  { url := ⟨"https", "www.example.com", "", "/release-candidate", ""⟩,
    method := "GET",
    headers := [("sec-fetch-dest", "document"),
                ("x-deployment-override", "rc-1.example.com")],
    cookies := [] }

/-- An eligible `GET` document request for `/release-candidate` carrying the
sticky cookie `release_candidate=false`. -/
def req3 : RequestM :=
  { url := ⟨"https", "www3.example.com", "", "/release-candidate", ""⟩,
    method := "GET",
    headers := [("sec-fetch-dest", "document")],
    cookies := [("release_candidate", "false")] }

/-- An eligible `GET` document request for `/foo?x=1` with no cookies. -/
def req4 : RequestM :=
  { url := ⟨"https", "www.example.com", "", "/foo", "?x=1"⟩,
    method := "GET",
    headers := [("sec-fetch-dest", "document")],
    cookies := [] }

/-- An eligible `GET` document request for `/release-candidate`, no cookies. -/
def req5 : RequestM :=
  { url := ⟨"https", "www5.example.com", "", "/release-candidate", ""⟩,
    method := "GET",
    headers := [("sec-fetch-dest", "document")],
    cookies := [] }

/-- An eligible `GET` document request for `/` with no cookies (reaches the
weighted split). -/
def req5w : RequestM :=
  { url := ⟨"https", "www5.example.com", "", "/", ""⟩,
    method := "GET",
    headers := [("sec-fetch-dest", "document")],
    cookies := [] }

/-- An eligible `GET` document request for `/release-candidate` with no
cookies (routing origin is the reserved path alone). -/
def req6 : RequestM :=
  { url := ⟨"https", "www6.example.com", "", "/release-candidate", ""⟩,
    method := "GET",
    headers := [("sec-fetch-dest", "document")],
    cookies := [] }

/-- A plain `GET` document request for `/` (used against `fetchRCDeployment`
directly). -/
def req8 : RequestM :=
  { url := ⟨"https", "www8.example.com", "", "/", ""⟩,
    method := "GET",
    headers := [("sec-fetch-dest", "document")],
    cookies := [] }

/-- A `POST` request for `/` that accepts HTML (ineligible by method). -/
def req9 : RequestM :=
  { url := ⟨"https", "www9.example.com", "", "/", ""⟩,
    method := "POST",
    headers := [("accept", "text/html")],
    cookies := [] }

/-- An eligible `GET` document request for `/release-candidate` with no
cookies (a second forced-path instance). -/
def req6w : RequestM :=
  { url := ⟨"https", "www6w.example.com", "", "/release-candidate", ""⟩,
    method := "GET",
    headers := [("sec-fetch-dest", "document")],
    cookies := [] }

/-- The upstream request `getNextResponse` issues for `req4` and target
`rc.example.com` with an empty forwarded header set. -/
def req4up : UpstreamRequest :=
  { url := ⟨"https", "rc.example.com", "", "/foo", "?x=1"⟩,
    method := "GET",
    headers := [("x-deployment-override", "rc.example.com")],
    redirect := "manual" }

/-- The upstream request `getNextResponse` issues for `req8` and target
`rc.example.com` with an empty forwarded header set. -/
def req8up : UpstreamRequest :=
  { url := ⟨"https", "rc.example.com", "", "/", ""⟩,
    method := "GET",
    headers := [("x-deployment-override", "rc.example.com")],
    redirect := "manual" }

/-- An eligible `GET` document request for `/` with no cookies (reaches the
weighted split). -/
def req10 : RequestM :=
  { url := ⟨"https", "www10.example.com", "", "/", ""⟩,
    method := "GET",
    headers := [("sec-fetch-dest", "document")],
    cookies := [] }

/-! ## Helper lemmas -/

/-- Inversion for `getNextResponse`: a successful proxy call resolves the
domain, substitutes the hostname into the inbound URL, marks the forwarded
headers, uses the `fetch` default method `GET` with `redirect: 'manual'`,
and returns the oracle's answer for exactly that request. -/
theorem getNextResponse_ok_inv {req : RequestM} {domain : String}
    {headers : HeadersM} {uuid : String}
    {fetchO : UpstreamRequest → UpstreamResponse}
    {upReq : UpstreamRequest} {upResp : UpstreamResponse}
    (h : getNextResponse req domain headers uuid fetchO = .ok (upReq, upResp)) :
    ∃ fd, formatDeploymentUrl domain = .ok fd ∧
      upReq = { url := { req.url with hostname := fd }, method := "GET",
                headers := hSet headers "x-deployment-override" fd,
                redirect := "manual" } ∧
      upResp = fetchO upReq := by
  unfold getNextResponse at h
  cases hfd : formatDeploymentUrl domain with
  | error e => rw [hfd] at h; exact absurd h (by simp)
  | ok fd =>
    rw [hfd] at h
    simp only [Except.ok.injEq, Prod.mk.injEq] at h
    obtain ⟨h1, h2⟩ := h
    subst h1
    exact ⟨fd, rfl, rfl, h2.symm⟩

/-- Inversion for `fetchRCDeployment`: a successful RC proxy is a successful
`getNextResponse` whose response cookies are extended with the base
response's `Set-Cookie` values and the literal `release_candidate=true`. -/
theorem fetchRCDeployment_ok_inv {req : RequestM} {headers : HeadersM}
    {uuid rcDomain : String} {response : ResponseM}
    {fetchO : UpstreamRequest → UpstreamResponse}
    {upReq : UpstreamRequest} {upResp : UpstreamResponse}
    (h : fetchRCDeployment req headers uuid rcDomain response fetchO =
      .ok (upReq, upResp)) :
    ∃ fd, formatDeploymentUrl rcDomain = .ok fd ∧
      upReq = { url := { req.url with hostname := fd }, method := "GET",
                headers := hSet headers "x-deployment-override" fd,
                redirect := "manual" } ∧
      upResp = { fetchO upReq with
                   setCookies := (fetchO upReq).setCookies ++
                     response.setCookies ++ ["release_candidate=true"] } := by
  unfold fetchRCDeployment at h
  cases hg : getNextResponse req rcDomain headers uuid fetchO with
  | error e => rw [hg] at h; exact absurd h (by simp)
  | ok pr =>
    obtain ⟨u, r⟩ := pr
    rw [hg] at h
    simp only [Except.ok.injEq, Prod.mk.injEq] at h
    obtain ⟨fd, hfd, hu, hr⟩ := getNextResponse_ok_inv hg
    exact ⟨fd, hfd, by rw [← h.1, hu], by rw [← h.2, hr, ← h.1, hu]⟩

/-- Inversion for `handleDeployment` results that proxy: the pipeline was not
skipped and the result is a single successful `fetchRCDeployment` call. -/
theorem handleDeployment_proxied_inv {request : RequestM}
    {response : ResponseM} {headers : HeadersM}
    {uuid config rcDomain : String} {roll : ℚ}
    {fetchO : UpstreamRequest → UpstreamResponse}
    {up : UpstreamResponse} {reqs : List UpstreamRequest}
    (h : handleDeployment request response headers uuid config rcDomain roll
      fetchO = .ok (.proxied up, reqs)) :
    shouldSkipBlueGreenDeployment request headers = false ∧
    ∃ upReq, fetchRCDeployment request headers uuid rcDomain response fetchO =
        .ok (upReq, up) ∧ reqs = [upReq] := by
  by_cases hskip : shouldSkipBlueGreenDeployment request headers = true
  · simp [handleDeployment, hskip] at h
  · refine ⟨Bool.eq_false_iff.mpr hskip, ?_⟩
    by_cases hcf : cookieGet request "release_candidate" = some "false"
    · simp [handleDeployment, hskip, hcf] at h
    · by_cases hov : truthy (hGet request.headers "x-deployment-override") = true
      · simp [handleDeployment, hskip, hcf, hov] at h
      · cases hrc : fetchRCDeployment request headers uuid rcDomain response
          fetchO with
        | error e =>
          by_cases hpath : request.url.pathname = "/release-candidate"
          · simp [handleDeployment, hskip, hcf, hov, hpath, hrc] at h
          · by_cases hct : cookieGet request "release_candidate" = some "true"
            · simp [handleDeployment, hskip, hcf, hov, hpath, hct, hrc] at h
            · by_cases hroll : roll < (90 : ℚ)
              · simp [handleDeployment, hskip, hcf, hov, hpath, hct, hrc,
                  productionRcConfig, selectBlueGreenDeployment, hroll] at h
              · simp [handleDeployment, hskip, hcf, hov, hpath, hct, hrc,
                  productionRcConfig, selectBlueGreenDeployment, hroll] at h
        | ok pr =>
          obtain ⟨u, r⟩ := pr
          by_cases hpath : request.url.pathname = "/release-candidate"
          · simp [handleDeployment, hskip, hcf, hov, hpath, hrc] at h
            exact ⟨u, by rw [h.1], h.2.symm⟩
          · by_cases hct : cookieGet request "release_candidate" = some "true"
            · simp [handleDeployment, hskip, hcf, hov, hpath, hct, hrc] at h
              exact ⟨u, by rw [h.1], h.2.symm⟩
            · by_cases hroll : roll < (90 : ℚ)
              · simp [handleDeployment, hskip, hcf, hov, hpath, hct, hrc,
                  productionRcConfig, selectBlueGreenDeployment, hroll] at h
                exact ⟨u, by rw [h.1], h.2.symm⟩
              · simp [handleDeployment, hskip, hcf, hov, hpath, hct, hrc,
                  productionRcConfig, selectBlueGreenDeployment, hroll] at h

/-- Inversion for `handleDeployment` results that return the base response:
no upstream request is issued and the base response is either untouched or
carries exactly the freshly written `release_candidate=false` cookie. -/
theorem handleDeployment_base_inv {request : RequestM}
    {response : ResponseM} {headers : HeadersM}
    {uuid config rcDomain : String} {roll : ℚ}
    {fetchO : UpstreamRequest → UpstreamResponse}
    {r : ResponseM} {reqs : List UpstreamRequest}
    (h : handleDeployment request response headers uuid config rcDomain roll
      fetchO = .ok (.base r, reqs)) :
    reqs = [] ∧
    (r = response ∨
      r = cookiesSet response "release_candidate" "false" (some MAX_AGE)) := by
  by_cases hskip : shouldSkipBlueGreenDeployment request headers = true
  · simp [handleDeployment, hskip] at h
    exact ⟨h.2, Or.inl h.1.symm⟩
  · by_cases hcf : cookieGet request "release_candidate" = some "false"
    · simp [handleDeployment, hskip, hcf] at h
      exact ⟨h.2, Or.inl h.1.symm⟩
    · by_cases hov : truthy (hGet request.headers "x-deployment-override") = true
      · simp [handleDeployment, hskip, hcf, hov] at h
        exact ⟨h.2, Or.inl h.1.symm⟩
      · cases hrc : fetchRCDeployment request headers uuid rcDomain response
          fetchO with
        | error e =>
          by_cases hpath : request.url.pathname = "/release-candidate"
          · simp [handleDeployment, hskip, hcf, hov, hpath, hrc] at h
          · by_cases hct : cookieGet request "release_candidate" = some "true"
            · simp [handleDeployment, hskip, hcf, hov, hpath, hct, hrc] at h
            · by_cases hroll : roll < (90 : ℚ)
              · simp [handleDeployment, hskip, hcf, hov, hpath, hct, hrc,
                  productionRcConfig, selectBlueGreenDeployment, hroll] at h
              · simp [handleDeployment, hskip, hcf, hov, hpath, hct, hrc,
                  productionRcConfig, selectBlueGreenDeployment, hroll] at h
                exact ⟨h.2, Or.inr h.1.symm⟩
        | ok pr =>
          obtain ⟨u, rr⟩ := pr
          by_cases hpath : request.url.pathname = "/release-candidate"
          · simp [handleDeployment, hskip, hcf, hov, hpath, hrc] at h
          · by_cases hct : cookieGet request "release_candidate" = some "true"
            · simp [handleDeployment, hskip, hcf, hov, hpath, hct, hrc] at h
            · by_cases hroll : roll < (90 : ℚ)
              · simp [handleDeployment, hskip, hcf, hov, hpath, hct, hrc,
                  productionRcConfig, selectBlueGreenDeployment, hroll] at h
              · simp [handleDeployment, hskip, hcf, hov, hpath, hct, hrc,
                  productionRcConfig, selectBlueGreenDeployment, hroll] at h
                exact ⟨h.2, Or.inr h.1.symm⟩

/-! ## Claims -/

/-- C1 (counterexample): a request whose inbound headers contain
`x-deployment-override` with an *empty* value is not short-circuited —
JavaScript truthiness treats the empty string as absent, so the pipeline
still proxies (one upstream request) and appends the sticky cookie instead
of returning the base response unmodified. -/
theorem c1_loop_guard_cex :
    hGet req1cex.headers "x-deployment-override" = some "" ∧
    handleDeployment req1cex ⟨[]⟩ [] "u1" "cfg" "rc.example.com" 0 okOracle =
      .ok (.proxied ⟨200, ["release_candidate=true"], ""⟩,
        [{ url := ⟨"https", "rc.example.com", "", "/release-candidate", ""⟩,
           method := "GET",
           headers := [("x-deployment-override", "rc.example.com")],
           redirect := "manual" }]) := by decide

/-- C1 (amended): whenever the inbound request headers carry the
loop-prevention header `x-deployment-override` with a non-empty value, the
pipeline returns the caller's base response unmodified — no reserved-path
override, no weighted split, no upstream proxy fetch, no sticky cookie —
for every base response, RNG draw and fetch oracle, so re-invoking the
pipeline on the same context yields the same unmodified response. -/
theorem c1_loop_guard (request : RequestM) (response : ResponseM)
    (headers : HeadersM) (uuid config rcDomain : String) (roll : ℚ)
    (fetchO : UpstreamRequest → UpstreamResponse) (v : String)
    (hpresent : hGet request.headers "x-deployment-override" = some v)
    (hne : v ≠ "") :
    handleDeployment request response headers uuid config rcDomain roll
      fetchO = .ok (.base response, []) := by
  by_cases hskip : shouldSkipBlueGreenDeployment request headers = true
  · simp [handleDeployment, hskip]
  · by_cases hcf : cookieGet request "release_candidate" = some "false"
    · simp [handleDeployment, hskip, hcf]
    · have hov : truthy (hGet request.headers "x-deployment-override") = true := by
        rw [hpresent]
        simpa [truthy, bne_iff_ne] using hne
      simp [handleDeployment, hskip, hcf, hov]

/-- Witness for C1 at a concrete request carrying
`x-deployment-override: rc-1.example.com`, with a draw that would otherwise
proxy. -/
theorem c1_loop_guard_w :
    handleDeployment req1w ⟨[]⟩ [] "u1w" "cfg" "rc.example.com" 42 okOracle =
      .ok (.base ⟨[]⟩, []) :=
  c1_loop_guard req1w ⟨[]⟩ [] "u1w" "cfg" "rc.example.com" 42 okOracle
    "rc-1.example.com" (by decide) (by decide)

/-- C2: for weight `w ∈ [0,100]` and RNG draw `roll ∈ [0,100)`, the traffic
splitter returns the release candidate iff `roll < w`; the boundary draw
`roll = w` selects production, weight 0 always selects production, and
weight 100 always selects the release candidate. -/
theorem c2_select_iff (w roll : ℚ) (hw0 : 0 ≤ w) (hw100 : w ≤ 100)
    (hr0 : 0 ≤ roll) (hr100 : roll < 100) :
    (selectBlueGreenDeployment ⟨w⟩ roll = .rc ↔ roll < w) ∧
    (roll = w → selectBlueGreenDeployment ⟨w⟩ roll = .production) ∧
    (w = 0 → selectBlueGreenDeployment ⟨w⟩ roll = .production) ∧
    (w = 100 → selectBlueGreenDeployment ⟨w⟩ roll = .rc) := by
  refine ⟨?_, ?_, ?_, ?_⟩
  · by_cases hlt : roll < w <;> simp [selectBlueGreenDeployment, hlt]
  · rintro rfl
    simp [selectBlueGreenDeployment, lt_irrefl]
  · rintro rfl
    simp [selectBlueGreenDeployment, not_lt.mpr hr0]
  · rintro rfl
    simp [selectBlueGreenDeployment, hr100]

/-- Witness for C2 at weight 90 and draw 50. -/
theorem c2_select_iff_w :
    (selectBlueGreenDeployment ⟨90⟩ 50 = .rc ↔ (50 : ℚ) < 90) ∧
    ((50 : ℚ) = 90 → selectBlueGreenDeployment ⟨90⟩ 50 = .production) ∧
    ((90 : ℚ) = 0 → selectBlueGreenDeployment ⟨90⟩ 50 = .production) ∧
    ((90 : ℚ) = 100 → selectBlueGreenDeployment ⟨90⟩ 50 = .rc) :=
  c2_select_iff 90 50 (by norm_num) (by norm_num) (by norm_num) (by norm_num)

/-- C3: every eligible request carrying the cookie
`release_candidate=false` receives the base response as a pass-through —
no proxy call, no cookie mutation — for every path, in particular for
`/release-candidate` (the sticky check runs before the reserved-path
override). -/
theorem c3_sticky_false_passthrough (request : RequestM)
    (response : ResponseM) (headers : HeadersM)
    (uuid config rcDomain : String) (roll : ℚ)
    (fetchO : UpstreamRequest → UpstreamResponse)
    (helig : shouldSkipBlueGreenDeployment request headers = false)
    (hcookie : cookieGet request "release_candidate" = some "false") :
    handleDeployment request response headers uuid config rcDomain roll
      fetchO = .ok (.base response, []) := by
  simp [handleDeployment, helig, hcookie]

/-- Witness for C3 at a concrete eligible request for `/release-candidate`
carrying `release_candidate=false`. -/
theorem c3_sticky_false_passthrough_w :
    req3.url.pathname = "/release-candidate" ∧
    handleDeployment req3 ⟨["x=1"]⟩ [] "u3" "cfg" "rc.example.com" 0 okOracle =
      .ok (.base ⟨["x=1"]⟩, []) :=
  ⟨by decide,
   c3_sticky_false_passthrough req3 ⟨["x=1"]⟩ [] "u3" "cfg" "rc.example.com" 0
     okOracle (by decide) (by decide)⟩

/-- C7 (counterexample): `formatDeploymentUrl` is not total on identifiers
that begin with `http` but do not parse as URLs — on `"httpx"` the `new URL`
constructor throws (modelled as `.error`) instead of passing the raw string
through. -/
theorem c7_format_total_cex :
    formatDeploymentUrl "httpx" = .error "Invalid URL" ∧
    formatDeploymentUrl "httpx" ≠ .ok "httpx" := by decide

/-- C7 (amended): for every identifier, if it does not begin with `http` it
is returned unchanged; if it begins with `http` and parses as a URL its
hostname is returned; but if it begins with `http` and does not parse,
`new URL` throws — the function is not total on that third class of
inputs. -/
theorem c7_format_total (s : String) :
    (strPrefixOf "http" s = false → formatDeploymentUrl s = .ok s) ∧
    (∀ u, strPrefixOf "http" s = true → parseUrl s = some u →
      formatDeploymentUrl s = .ok u.hostname) ∧
    (strPrefixOf "http" s = true → parseUrl s = none →
      formatDeploymentUrl s = .error "Invalid URL") := by
  refine ⟨?_, ?_, ?_⟩
  · intro h
    simp [formatDeploymentUrl, h]
  · intro u h hp
    simp [formatDeploymentUrl, h, hp]
  · intro h hp
    simp [formatDeploymentUrl, h, hp]

/-- Witness for C7 at the repository's actual RC domain (a bare hostname,
passed through unchanged), at parseable URLs — including a special-scheme
URL without slashes and one with a fragment — and at ones whose port or
shape makes `new URL` throw. -/
theorem c7_format_total_w :
    formatDeploymentUrl "rc-00301507.vercel-support.app" =
      .ok "rc-00301507.vercel-support.app" ∧
    formatDeploymentUrl "https://rc.example.com/x?q=1" = .ok "rc.example.com" ∧
    formatDeploymentUrl "http:example.com" = .ok "example.com" ∧
    formatDeploymentUrl "http://host/p#frag" = .ok "host" ∧
    formatDeploymentUrl "https://host:abc" = .error "Invalid URL" :=
  ⟨(c7_format_total "rc-00301507.vercel-support.app").1 (by decide),
   (c7_format_total "https://rc.example.com/x?q=1").2.1
     ⟨"https", "rc.example.com", "", "/x", "?q=1"⟩ (by decide) (by decide),
   (c7_format_total "http:example.com").2.1
     ⟨"http", "example.com", "", "/", ""⟩ (by decide) (by decide),
   (c7_format_total "http://host/p#frag").2.1
     ⟨"http", "host", "", "/p", ""⟩ (by decide) (by decide),
   (c7_format_total "https://host:abc").2.2 (by decide) (by decide)⟩

/-- C4: every proxied pipeline run issues exactly one upstream request; its
URL is the inbound URL with only the hostname replaced by the resolved
target hostname (scheme, port, path and query preserved), it forwards the
supplied method (necessarily `GET`, which coincides with the `fetch`
default) and the supplied headers plus `x-deployment-override` set to the
resolved hostname, and redirect following is disabled (`manual`). -/
theorem c4_proxy_fidelity (request : RequestM) (response : ResponseM)
    (headers : HeadersM) (uuid config rcDomain : String) (roll : ℚ)
    (fetchO : UpstreamRequest → UpstreamResponse) (up : UpstreamResponse)
    (reqs : List UpstreamRequest)
    (h : handleDeployment request response headers uuid config rcDomain roll
      fetchO = .ok (.proxied up, reqs)) :
    request.method = "GET" ∧
    ∃ fd, formatDeploymentUrl rcDomain = .ok fd ∧
      reqs = [{ url := { request.url with hostname := fd },
                method := request.method,
                headers := hSet headers "x-deployment-override" fd,
                redirect := "manual" }] := by
  obtain ⟨hskip, upReq, hrc, hreqs⟩ := handleDeployment_proxied_inv h
  have hget : request.method = "GET" := by
    by_contra hne
    have : shouldSkipBlueGreenDeployment request headers = true := by
      simp [shouldSkipBlueGreenDeployment, Bool.or_eq_true, bne_iff_ne, hne]
    simp [this] at hskip
  obtain ⟨fd, hfd, hu, _⟩ := fetchRCDeployment_ok_inv hrc
  exact ⟨hget, fd, hfd, by rw [hreqs, hu, hget]⟩

/-- Witness for C4: inbound path `/foo?x=1`, target `rc.example.com`; the
issued upstream URL is `https://rc.example.com/foo?x=1`. -/
theorem c4_proxy_fidelity_w :
    (req4.method = "GET" ∧
     ∃ fd, formatDeploymentUrl "rc.example.com" = .ok fd ∧
       [req4up] = [{ url := { req4.url with hostname := fd },
                     method := req4.method,
                     headers := hSet ([] : HeadersM) "x-deployment-override" fd,
                     redirect := "manual" }]) ∧
    hrefOf req4up.url = "https://rc.example.com/foo?x=1" :=
  ⟨c4_proxy_fidelity req4 ⟨[]⟩ [] "u4" "cfg" "rc.example.com" 50 okOracle
     ⟨200, ["release_candidate=true"], ""⟩ [req4up] (by decide),
   by decide⟩

/-- C5 (counterexample): on an RC-proxied response the sticky cookie is
appended as the bare string `release_candidate=true`, which carries no
`Max-Age` attribute at all — not a 24-hour lifetime. -/
theorem c5_cookie_lifetimes_cex :
    handleDeployment req5 ⟨[]⟩ [] "u5" "cfg" "rc5.example.com" 0 okOracle =
      .ok (.proxied ⟨200, ["release_candidate=true"], ""⟩,
        [{ url := ⟨"https", "rc5.example.com", "", "/release-candidate", ""⟩,
           method := "GET",
           headers := [("x-deployment-override", "rc5.example.com")],
           redirect := "manual" }]) ∧
    substrIn "release_candidate=true" "Max-Age" = false := by decide

/-- C5 (amended): the `release_candidate=false` cookie written when the
weighted split selects production carries `Max-Age=86400` (24 hours), and
it is the only cookie a base-returning run can write; but the
`release_candidate=true` value appended on every RC-proxied response is the
bare pair with no `Max-Age` attribute (a session cookie). -/
theorem c5_cookie_lifetimes :
    (∀ request response headers uuid config rcDomain roll fetchO r reqs,
      handleDeployment request response headers uuid config rcDomain roll
        fetchO = .ok (.base r, reqs) →
      r = response ∨
        r = cookiesSet response "release_candidate" "false" (some MAX_AGE)) ∧
    (∀ req headers uuid rcDomain response fetchO upReq upResp,
      fetchRCDeployment req headers uuid rcDomain response fetchO =
        .ok (upReq, upResp) →
      upResp.setCookies.getLast? = some "release_candidate=true") ∧
    serializeCookie "release_candidate" "false" (some MAX_AGE) =
      "release_candidate=false; Max-Age=86400" ∧
    MAX_AGE = 86400 ∧
    substrIn "release_candidate=true" "Max-Age" = false := by
  refine ⟨?_, ?_, by decide, by decide, by decide⟩
  · intro request response headers uuid config rcDomain roll fetchO r reqs h
    exact (handleDeployment_base_inv h).2
  · intro req headers uuid rcDomain response fetchO upReq upResp h
    obtain ⟨fd, hfd, hu, hr⟩ := fetchRCDeployment_ok_inv h
    subst hr
    simp

/-- Witness for C5: a concrete split-step run with draw 95 writes exactly
the `Max-Age=86400` false cookie onto the base response. -/
theorem c5_cookie_lifetimes_w :
    cookiesSet ⟨[]⟩ "release_candidate" "false" (some MAX_AGE) =
        (⟨[]⟩ : ResponseM) ∨
      cookiesSet ⟨[]⟩ "release_candidate" "false" (some MAX_AGE) =
        cookiesSet ⟨[]⟩ "release_candidate" "false" (some MAX_AGE) :=
  c5_cookie_lifetimes.1 req5w ⟨[]⟩ [] "u5w" "cfg" "rc5.example.com" 95 okOracle
    (cookiesSet ⟨[]⟩ "release_candidate" "false" (some MAX_AGE)) []
    (by decide)

/-- C6 (counterexample): a request routed to RC solely by the reserved path
(no sticky cookie present, origin `forced_path`) *does* write the sticky
cookie: the final response carries `release_candidate=true`. -/
theorem c6_cookie_write_origins_cex :
    cookieGet req6 "release_candidate" = none ∧
    req6.url.pathname = "/release-candidate" ∧
    handleDeployment req6 ⟨[]⟩ [] "u6" "cfg" "rc6.example.com" 0 okOracle =
      .ok (.proxied ⟨200, ["release_candidate=true"], ""⟩,
        [{ url := ⟨"https", "rc6.example.com", "", "/release-candidate", ""⟩,
           method := "GET",
           headers := [("x-deployment-override", "rc6.example.com")],
           redirect := "manual" }]) := by decide

/-- C6 (amended): the `release_candidate=true` cookie is appended on every
RC-proxied response — origins `forced_path`, `sticky_true` and `random`
alike, so in particular the reserved path alone does write the sticky
cookie — and a base-returning run writes at most the
`release_candidate=false` cookie of the random-production branch. -/
theorem c6_cookie_write_origins :
    (∀ request response headers uuid config rcDomain roll fetchO up reqs,
      handleDeployment request response headers uuid config rcDomain roll
        fetchO = .ok (.proxied up, reqs) →
      up.setCookies.getLast? = some "release_candidate=true") ∧
    (∀ request response headers uuid config rcDomain roll fetchO fd,
      shouldSkipBlueGreenDeployment request headers = false →
      cookieGet request "release_candidate" = none →
      truthy (hGet request.headers "x-deployment-override") = false →
      request.url.pathname = "/release-candidate" →
      formatDeploymentUrl rcDomain = .ok fd →
      ∃ upReq upResp,
        handleDeployment request response headers uuid config rcDomain roll
          fetchO = .ok (.proxied upResp, [upReq]) ∧
        upResp.setCookies.getLast? = some "release_candidate=true") ∧
    (∀ request response headers uuid config rcDomain roll fetchO r reqs,
      handleDeployment request response headers uuid config rcDomain roll
        fetchO = .ok (.base r, reqs) →
      r = response ∨
        r = cookiesSet response "release_candidate" "false" (some MAX_AGE)) := by
  refine ⟨?_, ?_, ?_⟩
  · intro request response headers uuid config rcDomain roll fetchO up reqs h
    obtain ⟨_, upReq, hrc, _⟩ := handleDeployment_proxied_inv h
    obtain ⟨fd, hfd, hu, hr⟩ := fetchRCDeployment_ok_inv hrc
    subst hr
    simp
  · intro request response headers uuid config rcDomain roll fetchO fd
      hskip hcnone hov hpath hfd
    have hcf : ¬ cookieGet request "release_candidate" = some "false" := by
      simp [hcnone]
    have hovf : ¬ truthy (hGet request.headers "x-deployment-override") = true := by
      simp [hov]
    cases hrcE : fetchRCDeployment request headers uuid rcDomain response
      fetchO with
    | error e =>
      unfold fetchRCDeployment getNextResponse at hrcE
      rw [hfd] at hrcE
      exact absurd hrcE (by simp)
    | ok pr =>
      obtain ⟨upReq, upResp⟩ := pr
      refine ⟨upReq, upResp, ?_, ?_⟩
      · simp [handleDeployment, hskip, hcf, hovf, hpath, hrcE]
      · obtain ⟨fd₂, hfd₂, hu, hr⟩ := fetchRCDeployment_ok_inv hrcE
        subst hr
        simp
  · intro request response headers uuid config rcDomain roll fetchO r reqs h
    exact (handleDeployment_base_inv h).2

/-- Witness for C6: a concrete forced-path request with no cookies is
proxied and its response ends with the `release_candidate=true` cookie. -/
theorem c6_cookie_write_origins_w :
    ∃ upReq upResp,
      handleDeployment req6w ⟨[]⟩ [] "u6w" "cfg" "rc6.example.com" 0 okOracle =
        .ok (.proxied upResp, [upReq]) ∧
      upResp.setCookies.getLast? = some "release_candidate=true" :=
  c6_cookie_write_origins.2.1 req6w ⟨[]⟩ [] "u6w" "cfg" "rc6.example.com" 0
    okOracle "rc6.example.com" (by decide) (by decide) (by decide) (by decide)
    (by decide)

/-- C8: the RC merge starts from the upstream response (status and body
unchanged) and extends its `Set-Cookie` values — as distinct occurrences,
never concatenated — with the base response's values and then
`release_candidate=true`. -/
theorem c8_cookie_accumulation {req : RequestM} {headers : HeadersM}
    {uuid rcDomain : String} {response : ResponseM}
    {fetchO : UpstreamRequest → UpstreamResponse}
    {upReq : UpstreamRequest} {upResp : UpstreamResponse}
    (h : fetchRCDeployment req headers uuid rcDomain response fetchO =
      .ok (upReq, upResp)) :
    upResp.status = (fetchO upReq).status ∧
    upResp.body = (fetchO upReq).body ∧
    upResp.setCookies =
      (fetchO upReq).setCookies ++ response.setCookies ++
        ["release_candidate=true"] := by
  obtain ⟨fd, hfd, hu, hr⟩ := fetchRCDeployment_ok_inv h
  subst hr
  exact ⟨rfl, rfl, rfl⟩

/-- Witness for C8: merging a base response carrying `a=1` with an upstream
result carrying `b=2` yields exactly three distinct `Set-Cookie`
occurrences: `b=2`, `a=1`, `release_candidate=true`. -/
theorem c8_cookie_accumulation_w :
    ((⟨200, ["b=2", "a=1", "release_candidate=true"], ""⟩ :
        UpstreamResponse).setCookies =
      (bOracle req8up).setCookies ++ (⟨["a=1"]⟩ : ResponseM).setCookies ++
        ["release_candidate=true"]) ∧
    (["b=2", "a=1", "release_candidate=true"] : List String).length = 3 ∧
    (["b=2", "a=1", "release_candidate=true"] : List String).Nodup :=
  ⟨(c8_cookie_accumulation
      (show fetchRCDeployment req8 [] "u8" "rc.example.com" ⟨["a=1"]⟩ bOracle =
        .ok (req8up, ⟨200, ["b=2", "a=1", "release_candidate=true"], ""⟩)
        by decide)).2.2,
   by decide, by decide⟩

/-- C9: a request is ineligible — the pipeline passes the base response
through unmodified with no proxy call and no cookie change — whenever the
method is not `GET`, or it is not a document request, or the user agent
contains `vercel` case-insensitively; and document-request status is
`sec-fetch-dest == "document"` when that header is present, otherwise
whether `accept` contains `text/html` (absent `accept` means not a document
request). -/
theorem c9_ineligible_passthrough (request : RequestM) (response : ResponseM)
    (headers : HeadersM) (uuid config rcDomain : String) (roll : ℚ)
    (fetchO : UpstreamRequest → UpstreamResponse)
    (h : request.method ≠ "GET" ∨ isDocumentRequest request = false ∨
      isVercelUserAgent ((hGet headers "user-agent").getD "") = true) :
    handleDeployment request response headers uuid config rcDomain roll
      fetchO = .ok (.base response, []) ∧
    (∀ v, hGet request.headers "sec-fetch-dest" = some v →
      (isDocumentRequest request = true ↔ v = "document")) ∧
    (hGet request.headers "sec-fetch-dest" = none →
      ∀ a, hGet request.headers "accept" = some a →
        (isDocumentRequest request = true ↔ substrIn a "text/html" = true)) ∧
    (hGet request.headers "sec-fetch-dest" = none →
      hGet request.headers "accept" = none →
      isDocumentRequest request = false) := by
  have hskip : shouldSkipBlueGreenDeployment request headers = true := by
    rcases h with h | h | h <;>
      simp [shouldSkipBlueGreenDeployment, Bool.or_eq_true, bne_iff_ne, h]
  refine ⟨by simp [handleDeployment, hskip], ?_, ?_, ?_⟩
  · intro v hv
    simp [isDocumentRequest, hv]
  · intro hs a ha
    simp [isDocumentRequest, hs, ha]
  · intro hs ha
    simp [isDocumentRequest, hs, ha]

/-- Witness for C9: `POST /` is passed through unmodified with no proxy
call (method filter). -/
theorem c9_ineligible_passthrough_w :
    handleDeployment req9 ⟨[]⟩ [] "u9" "cfg" "rc.example.com" 0 okOracle =
      .ok (.base ⟨[]⟩, []) :=
  (c9_ineligible_passthrough req9 ⟨[]⟩ [] "u9" "cfg" "rc.example.com" 0
    okOracle (Or.inl (by decide))).1

/-- C10: the split configuration is the hard-coded constant
`{ trafficRcPercent := 90 }` (`productionRcConfig` is `some`, so the
configuration-absent fail-open branch never executes); the unused `config`
string parameter has no influence on the result; and every run reaching the
split step decides by the weighted draw with weight 90 — production writes
the sticky-false cookie, an `rc` draw proxies. -/
theorem c10_hardcoded_config (request : RequestM) (response : ResponseM)
    (headers : HeadersM) (uuid rcDomain : String) (roll : ℚ)
    (fetchO : UpstreamRequest → UpstreamResponse) :
    productionRcConfig = some { trafficRcPercent := 90 } ∧
    productionRcConfig.isSome = true ∧
    (∀ config₁ config₂,
      handleDeployment request response headers uuid config₁ rcDomain roll
        fetchO =
      handleDeployment request response headers uuid config₂ rcDomain roll
        fetchO) ∧
    (∀ config,
      shouldSkipBlueGreenDeployment request headers = false →
      cookieGet request "release_candidate" ≠ some "false" →
      truthy (hGet request.headers "x-deployment-override") = false →
      request.url.pathname ≠ "/release-candidate" →
      cookieGet request "release_candidate" ≠ some "true" →
      (selectBlueGreenDeployment { trafficRcPercent := 90 } roll =
          .production →
        handleDeployment request response headers uuid config rcDomain roll
          fetchO =
        .ok (.base (cookiesSet response "release_candidate" "false"
          (some MAX_AGE)), [])) ∧
      (∀ upReq upResp,
        fetchRCDeployment request headers uuid rcDomain response fetchO =
          .ok (upReq, upResp) →
        selectBlueGreenDeployment { trafficRcPercent := 90 } roll = .rc →
        handleDeployment request response headers uuid config rcDomain roll
          fetchO = .ok (.proxied upResp, [upReq]))) := by
  refine ⟨rfl, rfl, fun c₁ c₂ => rfl, ?_⟩
  intro config hskip hcf hov hpath hct
  have hovf : ¬ truthy (hGet request.headers "x-deployment-override") = true := by
    simp [hov]
  constructor
  · intro hsel
    have hroll : ¬ roll < (90 : ℚ) := by
      intro hlt
      simp [selectBlueGreenDeployment, hlt] at hsel
    simp [handleDeployment, hskip, hcf, hovf, hpath, hct,
      productionRcConfig, selectBlueGreenDeployment, hroll]
  · intro upReq upResp hrc hsel
    have hroll : roll < (90 : ℚ) := by
      by_contra hge
      simp [selectBlueGreenDeployment, hge] at hsel
    simp [handleDeployment, hskip, hcf, hovf, hpath, hct,
      productionRcConfig, selectBlueGreenDeployment, hroll, hrc]

/-- Witness for C10: a concrete split-step run with draw 95 and an
arbitrary `config` string writes the sticky-false cookie. -/
theorem c10_hardcoded_config_w :
    handleDeployment req10 ⟨[]⟩ [] "u10" "configA" "rc10.example.com" 95
      okOracle =
    .ok (.base (cookiesSet ⟨[]⟩ "release_candidate" "false" (some MAX_AGE)),
      []) :=
  ((c10_hardcoded_config req10 ⟨[]⟩ [] "u10" "rc10.example.com" 95
      okOracle).2.2.2 "configA" (by decide) (by decide) (by decide)
      (by decide) (by decide)).1 (by decide)

end BlueGreen
